import Mathlib

/-
Verification of the CFO-Agent backend core against its design document.

Shallow embedding of src/cfo-helper/backend:
  * app/services/rag_agent.py   : FinancialContext, UserScenario, FinancialAnalysis,
                                  RAGAgent.analyze_scenario, _calculate_impact, _generate_summary
  * app/services/llm_rag_agent.py : VectorStore.add_documents / search,
                                  OpenLLMRAGAgent.generate_response
  * main.py                     : calculate_runway

Python floats are modelled as rationals (all the arithmetic involved is field
arithmetic, exact on the values of interest); Python dicts keyed by strings are
modelled as association lists; code that can raise is modelled in Except.
-/

namespace CFO

/-- Values a FinancialContext dict cell can hold: Python numbers (int and
float, both embedded in the rationals), strings, datetimes (as rational
seconds since the epoch, so that numeric timestamps convert losslessly) and
the metadata dict (as an opaque blob).  Mirrors the runtime types that
rag_agent.py's merge loop discriminates with isinstance(v, (int, float)). -/
inductive PyVal where
  | num (q : ℚ)
  | str (s : String)
  | dt (t : ℚ)
  | obj (o : String)
deriving DecidableEq, Repr

/-- Python isinstance(value, (int, float)) on a stored cell. -/
def PyVal.isNumeric : PyVal → Bool
  | .num _ => true
  | _ => false

/-- Errors the embedded Python code can raise. -/
inductive PyErr where
  | typeError
  | zeroDivisionError
  | validationError
deriving DecidableEq, Repr

/-- FinancialContext of rag_agent.py (pydantic model): one record per
company.  team_size and units_sold are declared int in the source and are
modelled as integers; the float fields are rationals; last_updated is a
timestamp in rational seconds, metadata an opaque blob. -/
structure FinancialContext where
  id : String
  company_id : String
  current_cash : ℚ
  monthly_revenue : ℚ
  monthly_expenses : ℚ
  marketing_spend : ℚ
  team_size : ℤ
  average_salary : ℚ
  price_per_unit : ℚ
  units_sold : ℤ
  runway_months : ℚ
  last_updated : ℚ
  metadata : String
deriving DecidableEq, Repr

/-- context.dict(): the pydantic model serialised to a Python dict, in field
declaration order; the int fields appear as Python numbers. -/
def contextDict (c : FinancialContext) : List (String × PyVal) :=
  [("id", .str c.id),
   ("company_id", .str c.company_id),
   ("current_cash", .num c.current_cash),
   ("monthly_revenue", .num c.monthly_revenue),
   ("monthly_expenses", .num c.monthly_expenses),
   ("marketing_spend", .num c.marketing_spend),
   ("team_size", .num (c.team_size : ℚ)),
   ("average_salary", .num c.average_salary),
   ("price_per_unit", .num c.price_per_unit),
   ("units_sold", .num (c.units_sold : ℚ)),
   ("runway_months", .num c.runway_months),
   ("last_updated", .dt c.last_updated),
   ("metadata", .obj c.metadata)]

/-- Python d[k] lookup on an association-list dict (None when absent). -/
def dictGet (d : List (String × PyVal)) (k : String) : Option PyVal :=
  (d.find? (fun p => p.1 = k)).map (fun p => p.2)

/-- Python d[k] = v on a key already present: in-place update, key order kept. -/
def dictSet (d : List (String × PyVal)) (k : String) (v : PyVal) :
    List (String × PyVal) :=
  d.map (fun p => if p.1 = k then (k, v) else p)

/-- One iteration of the merge loop of RAGAgent.analyze_scenario:
if key in updated_data: if isinstance(old, (int, float)): updated_data[key] += value
else: updated_data[key] = value.  Adding a non-number to a number raises
TypeError in Python; a key absent from the dict is skipped silently. -/
def applyChange (d : List (String × PyVal)) (kv : String × PyVal) :
    Except PyErr (List (String × PyVal)) :=
  match dictGet d kv.1 with
  | none => .ok d
  | some old =>
    match old with
    | .num a =>
      match kv.2 with
      | .num b => .ok (dictSet d kv.1 (.num (a + b)))
      | _ => .error .typeError
    | _ => .ok (dictSet d kv.1 kv.2)

/-- The whole merge loop, over the scenario's changes items in order; the
first raised TypeError aborts the loop as in Python. -/
def mergeChanges : List (String × PyVal) → List (String × PyVal) →
    Except PyErr (List (String × PyVal))
  | d, [] => .ok d
  | d, c :: cs =>
    match applyChange d c with
    | .error e => .error e
    | .ok d₁ => mergeChanges d₁ cs
termination_by structural _ cs => cs

/-- Python int(x) on a number: truncation toward zero.  This is what the
pydantic v1 int validator applies to a float input. -/
def pyTrunc (q : ℚ) : ℤ := if q < 0 then ⌈q⌉ else ⌊q⌋

/-- pydantic v1 str validator: strings pass through, numbers are coerced with
str(v).  (Python renders an integral int as its decimal digits, matched here
by the canonical rational rendering; a float keeps a trailing .0 spelling,
a difference of notation the model does not track.)  A datetime or a dict
value raises, as in v1. -/
def v1Str : Option PyVal → Option String
  | some (.str s) => some s
  | some (.num q) => some (toString q)
  | _ => none

/-- pydantic v1 float validator on the cells the merge loop can produce for
a float field: these are always numbers (a float original takes the additive
branch, so it is never replaced, and adding a non-number raises TypeError
before validation), and numbers pass through unchanged. -/
def v1Float : Option PyVal → Option ℚ
  | some (.num q) => some q
  | _ => none

/-- pydantic v1 int validator on a numeric cell: int(v), truncating a
fractional float toward zero.  As for v1Float, the merge loop can only leave
a number in an int field. -/
def v1Int : Option PyVal → Option ℤ
  | some (.num q) => some (pyTrunc q)
  | _ => none

/-- pydantic v1 datetime validator: datetimes pass through and a numeric
value is accepted as a unix timestamp (datetime.fromtimestamp), lossless in
rational seconds.  v1 would also parse an ISO-formatted string; string
timestamp parsing is not modelled, so a string replacement of last_updated
is treated as failing validation, as every non-ISO string does in the
program. -/
def v1Dt : Option PyVal → Option ℚ
  | some (.dt t) => some t
  | some (.num q) => some q
  | _ => none

/-- pydantic v1 Dict[str, Any] validator: only a dict is accepted. -/
def v1Obj : Option PyVal → Option String
  | some (.obj o) => some o
  | _ => none

/-- FinancialContext(**updated_data): pydantic re-validation of the merged
dict, reading every field by name under the coercion rules of pydantic v1
(the repository is pinned to v1: app/core/config.py imports BaseSettings
from pydantic, which only exists there).  In particular the int fields
team_size and units_sold truncate a fractional merged value, and a numeric
replacement of a string field is stored as its string form. -/
def fromDict (d : List (String × PyVal)) : Option FinancialContext :=
  (v1Str (dictGet d "id")).bind fun i =>
  (v1Str (dictGet d "company_id")).bind fun cid =>
  (v1Float (dictGet d "current_cash")).bind fun cc =>
  (v1Float (dictGet d "monthly_revenue")).bind fun mr =>
  (v1Float (dictGet d "monthly_expenses")).bind fun me =>
  (v1Float (dictGet d "marketing_spend")).bind fun ms =>
  (v1Int (dictGet d "team_size")).bind fun ts =>
  (v1Float (dictGet d "average_salary")).bind fun sal =>
  (v1Float (dictGet d "price_per_unit")).bind fun ppu =>
  (v1Int (dictGet d "units_sold")).bind fun us =>
  (v1Float (dictGet d "runway_months")).bind fun rm =>
  (v1Dt (dictGet d "last_updated")).bind fun lu =>
  (v1Obj (dictGet d "metadata")).bind fun md =>
  some ⟨i, cid, cc, mr, me, ms, ts, sal, ppu, us, rm, lu, md⟩

/-- Key list of a serialised FinancialContext, in declaration order. -/
def schemaKeys : List String :=
  ["id", "company_id", "current_cash", "monthly_revenue", "monthly_expenses",
   "marketing_spend", "team_size", "average_salary", "price_per_unit",
   "units_sold", "runway_months", "last_updated", "metadata"]

/-- String-typed fields of the schema. -/
def strFields : List String := ["id", "company_id"]

/-- Int-typed fields of the schema. -/
def intFields : List String := ["team_size", "units_sold"]

/-- Float-typed fields of the schema. -/
def floatFields : List String :=
  ["current_cash", "monthly_revenue", "monthly_expenses", "marketing_spend",
   "average_salary", "price_per_unit", "runway_months"]

/-- Cell of the re-serialised validated context at key k, as pydantic v1
computes it from the merged dict's cell at k: the field's validator applied
and the result stored back at the field's type. -/
def v1Reserialize (k : String) (x : Option PyVal) : Option PyVal :=
  if k ∈ strFields then (v1Str x).map .str
  else if k ∈ intFields then
    (v1Int x).map (fun n : ℤ => PyVal.num (n : ℚ))
  else if k = "last_updated" then (v1Dt x).map .dt
  else if k = "metadata" then (v1Obj x).map .obj
  else if k ∈ floatFields then (v1Float x).map .num
  else none

/-- Lines 93-102 of rag_agent.py as one function: serialise the context, run
the merge loop, re-validate.  This is the part of analyze_scenario that builds
updated_context. -/
def mergeAndValidate (ctx : FinancialContext) (changes : List (String × PyVal)) :
    Except PyErr FinancialContext :=
  match mergeChanges (contextDict ctx) changes with
  | .error e => .error e
  | .ok d =>
    match fromDict d with
    | some c => .ok c
    | none => .error .validationError

/-- Impact-delta record produced by RAGAgent._calculate_impact. -/
structure Impact where
  revenue_change : ℚ
  expense_change : ℚ
  marketing_impact : ℚ
  runway_impact : ℚ
  profit_impact : ℚ
deriving DecidableEq, Repr

/-- RAGAgent._calculate_impact (rag_agent.py lines 125-135). -/
def calculate_impact (original updated : FinancialContext) : Impact :=
  { revenue_change := updated.monthly_revenue - original.monthly_revenue
    expense_change := updated.monthly_expenses - original.monthly_expenses
    marketing_impact := updated.marketing_spend - original.marketing_spend
    runway_impact := updated.runway_months - original.runway_months
    profit_impact := (updated.monthly_revenue - updated.monthly_expenses) -
      (original.monthly_revenue - original.monthly_expenses) }

/-- Python division: raises ZeroDivisionError on a zero denominator. -/
def pyDiv (a b : ℚ) : Except PyErr ℚ :=
  if b = 0 then .error .zeroDivisionError else .ok (a / b)

/-- Value of a percent expression in the summary prompt: a finite float or
the float("inf") the guarded branches fall back to. -/
inductive PctVal where
  | fin (q : ℚ)
  | inf
deriving DecidableEq, Repr

/-- Text rendering of a percent value inside the prompt string. -/
def PctVal.render : PctVal → String
  | .fin q => toString q
  | .inf => "inf"

/-- Propose-changes section of RAGAgent._generate_summary (lines 160-182).
Each branch mirrors the source exactly, including which divisions carry a
zero-denominator guard: the revenue branch divides by original.monthly_revenue
WITHOUT a guard (source line 164), while the expense, marketing and team-size
branches guard with an if-else falling back to float("inf"). -/
def buildChangesLines (original updated : FinancialContext) :
    Except PyErr (List String) := do
  let l1 ←
    if updated.monthly_revenue ≠ original.monthly_revenue then do
      let change := updated.monthly_revenue - original.monthly_revenue
      let pct ← pyDiv change original.monthly_revenue
      pure ["- Revenue: " ++ toString change ++ " (" ++ toString (pct * 100) ++ "%)"]
    else pure []
  let l2 :=
    if updated.monthly_expenses ≠ original.monthly_expenses then
      let change := updated.monthly_expenses - original.monthly_expenses
      let pct : PctVal :=
        if original.monthly_expenses ≠ 0 then
          .fin ((change / original.monthly_expenses) * 100)
        else .inf
      ["- Expenses: " ++ toString change ++ " (" ++ pct.render ++ "%)"]
    else []
  let l3 :=
    if updated.marketing_spend ≠ original.marketing_spend then
      let change := updated.marketing_spend - original.marketing_spend
      let pct : PctVal :=
        if original.marketing_spend ≠ 0 then
          .fin ((change / original.marketing_spend) * 100)
        else .inf
      ["- Marketing Spend: " ++ toString change ++ " (" ++ pct.render ++ "%)"]
    else []
  let l4 :=
    if updated.team_size ≠ original.team_size then
      let change : ℤ := updated.team_size - original.team_size
      let pct : PctVal :=
        if original.team_size ≠ 0 then
          .fin (((change : ℚ) / (original.team_size : ℚ)) * 100)
        else .inf
      ["- Team Size: " ++ toString change ++ " employees (" ++ pct.render ++ "%)"]
    else []
  pure (l1 ++ l2 ++ l3 ++ l4)

/-- Impact-analysis section of the prompt (lines 186-191): both percentage
divisions here are guarded, falling back to 0 on a zero denominator. -/
def buildImpactLines (original updated : FinancialContext) (impact : Impact) :
    List String :=
  let revPct : ℚ :=
    if original.monthly_revenue ≠ 0 then
      impact.revenue_change / original.monthly_revenue * 100
    else 0
  let expPct : ℚ :=
    if original.monthly_expenses ≠ 0 then
      impact.expense_change / original.monthly_expenses * 100
    else 0
  ["- Revenue Change: " ++ toString impact.revenue_change ++
     " (" ++ toString revPct ++ "%)",
   "- Expense Change: " ++ toString impact.expense_change ++
     " (" ++ toString expPct ++ "%)",
   "- New Runway: " ++ toString updated.runway_months ++ " months (" ++
     toString impact.runway_impact ++ " months)",
   "- Monthly Profit Impact: " ++ toString impact.profit_impact]

/-- Whole prompt string handed to the text-generation collaborator by
RAGAgent._generate_summary.  Header figures come from the original context;
the changes and impact sections follow.  A ZeroDivisionError raised while the
string is assembled propagates. -/
def buildPrompt (original updated : FinancialContext) (impact : Impact) :
    Except PyErr String := do
  let header :=
    "Analyze this financial scenario and provide a detailed summary:\n" ++
    "Current Financial Status:\n" ++
    "- Monthly Revenue: " ++ toString original.monthly_revenue ++ "\n" ++
    "- Monthly Expenses: " ++ toString original.monthly_expenses ++ "\n" ++
    "- Current Runway: " ++ toString original.runway_months ++ " months\n" ++
    "- Marketing Spend: " ++ toString original.marketing_spend ++ "\n" ++
    "- Team Size: " ++ toString original.team_size ++ " employees\n" ++
    "Proposed Changes:\n"
  let changes ← buildChangesLines original updated
  let changesText := if changes.isEmpty then "No significant changes"
    else String.intercalate "\n" changes
  let impactText := String.intercalate "\n" (buildImpactLines original updated impact)
  pure (header ++ changesText ++ "\n\nImpact Analysis:\n" ++ impactText)

/-- Outcome of one call to the external text-generation service: the model
either produces a string or fails (timeout, API error, ...) with an exception
whose message is recorded. -/
inductive LLMResult where
  | success (s : String)
  | failure (err : String)
deriving DecidableEq, Repr

/-- OpenLLMRAGAgent.generate_response (llm_rag_agent.py lines 123-195), for an
initialised client: the entire service call sits in a try block whose except
clause returns the string "Error generating response: ..." instead of
re-raising.  The function itself therefore never raises. -/
def generate_response (llm : LLMResult) : String :=
  match llm with
  | .success s => s
  | .failure e => "Error generating response: " ++ e

/-- RAGAgent._generate_summary (lines 137-208): build the prompt (which may
raise ZeroDivisionError), call generate_response, prepend the fixed heading. -/
def generate_summary (original updated : FinancialContext) (impact : Impact)
    (llm : LLMResult) : Except PyErr String := do
  let _prompt ← buildPrompt original updated impact
  pure ("# Financial Impact Analysis\n\n" ++ generate_response llm)

/-- UserScenario of rag_agent.py (timestamp omitted: never read). -/
structure UserScenario where
  scenario_id : String
  company_id : String
  changes : List (String × PyVal)
deriving DecidableEq, Repr

/-- FinancialAnalysis of rag_agent.py (created_at omitted: never read). -/
structure FinancialAnalysis where
  analysis_id : String
  scenario_id : String
  company_id : String
  original_context : FinancialContext
  updated_context : FinancialContext
  impact_analysis : Impact
  summary : String
deriving DecidableEq, Repr

/-- The three in-memory stores of a RAGAgent instance, each a Python dict
modelled as an association list in insertion order. -/
structure AgentState where
  context_store : List (String × FinancialContext)
  scenario_store : List (String × UserScenario)
  analysis_store : List (String × FinancialAnalysis)
deriving DecidableEq, Repr

/-- Python store.get(key) on an association-list dict. -/
def lookup {α : Type} (d : List (String × α)) (k : String) : Option α :=
  (d.find? (fun p => p.1 = k)).map (fun p => p.2)

/-- Python store[key] = value: overwrite in place when the key exists,
append otherwise. -/
def storeSet {α : Type} (d : List (String × α)) (k : String) (v : α) :
    List (String × α) :=
  if d.any (fun p => p.1 = k) then
    d.map (fun p => if p.1 = k then (k, v) else p)
  else d ++ [(k, v)]

/-- Errors RAGAgent.analyze_scenario can raise, as the caller observes them:
the two ValueError lookups of lines 85-91 (each message carries the entity
kind and the offending id) and the arithmetic or validation faults of the
later steps. -/
inductive AnalyzeErr where
  | scenarioNotFound (id : String)
  | contextNotFound (company_id : String)
  | typeError
  | validationError
  | zeroDivisionError
deriving DecidableEq, Repr

/-- Message of the ValueError raised for a missing entity. -/
def AnalyzeErr.message : AnalyzeErr → String
  | .scenarioNotFound id => "Scenario " ++ id ++ " not found"
  | .contextNotFound cid => "No financial context found for company " ++ cid
  | .typeError => "TypeError"
  | .validationError => "ValidationError"
  | .zeroDivisionError => "ZeroDivisionError"

/-- Whether an error is one of the two NotFound lookups (the kind the HTTP
layer of app/api/endpoints/rag.py maps to a 404). -/
def AnalyzeErr.isNotFound : AnalyzeErr → Bool
  | .scenarioNotFound _ => true
  | .contextNotFound _ => true
  | _ => false

/-- RAGAgent.analyze_scenario (rag_agent.py lines 83-123).  The outcome of the
one external text-generation call is passed in as llm; everything else is the
source's own computation: look up the scenario and its company's context,
merge the changes, re-validate, compute the impact, generate the summary,
store the analysis under the key analysis_(n+1) where n is the current size of
the analysis store, and return it together with the new state. -/
def analyze_scenario (st : AgentState) (sid : String) (llm : LLMResult) :
    Except AnalyzeErr (FinancialAnalysis × AgentState) :=
  match lookup st.scenario_store sid with
  | none => .error (.scenarioNotFound sid)
  | some scenario =>
    match lookup st.context_store scenario.company_id with
    | none => .error (.contextNotFound scenario.company_id)
    | some context =>
      match mergeAndValidate context scenario.changes with
      | .error .typeError => .error .typeError
      | .error _ => .error .validationError
      | .ok updated =>
        let impact := calculate_impact context updated
        match generate_summary context updated impact llm with
        | .error _ => .error .zeroDivisionError
        | .ok summary =>
          let analysis_id := "analysis_" ++ toString (st.analysis_store.length + 1)
          let analysis : FinancialAnalysis :=
            { analysis_id := analysis_id
              scenario_id := sid
              company_id := scenario.company_id
              original_context := context
              updated_context := updated
              impact_analysis := impact
              summary := summary }
          .ok (analysis,
            { st with analysis_store := storeSet st.analysis_store analysis_id analysis })

/-- ScenarioInput of main.py (defaults as in the pydantic model). -/
structure ScenarioInput where
  current_cash : ℚ
  monthly_revenue : ℚ
  monthly_expenses : ℚ
  new_hires : ℚ := 0
  salary_per_hire : ℚ := 0
  marketing_spend : ℚ := 0
  price_increase_percent : ℚ := 0
  months_to_forecast : ℕ := 12
deriving DecidableEq, Repr

/-- One row appended to monthly_data by calculate_runway. -/
structure ForecastEntry where
  month : ℕ
  revenue : ℚ
  expenses : ℚ
  net_income : ℚ
  balance : ℚ
deriving DecidableEq, Repr

/-- ScenarioResult of main.py (id and timestamps omitted: opaque). -/
structure ScenarioResult where
  monthly_forecast : List ForecastEntry
  total_months_of_runway : ℕ
  final_cash_balance : ℚ
deriving DecidableEq, Repr

/-- Loop body of calculate_runway (main.py lines 135-154), recursing on the
number of months still to simulate.  Arguments: the constant monthly net and
the constant revenue and expense figures of every row, then months remaining,
the current month number, running balance, and runway recorded so far.
Returns the rows produced, the final runway count and the final balance. -/
def runwayLoop (net adjRev expTotal : ℚ) :
    ℕ → ℕ → ℚ → ℕ → List ForecastEntry × ℕ × ℚ
  | 0, _, bal, run => ([], run, bal)
  | r + 1, m, bal, run =>
    let bal' := bal + net
    let entry : ForecastEntry :=
      { month := m, revenue := adjRev, expenses := expTotal,
        net_income := net, balance := bal' }
    let run' := if 0 < bal' then m else run
    if bal' ≤ 0 then ([entry], run', bal')
    else
      let rest := runwayLoop net adjRev expTotal r (m + 1) bal' run'
      (entry :: rest.1, rest.2.1, rest.2.2)
termination_by structural r => r

/-- calculate_runway of main.py (lines 120-166): price-adjusted revenue and
hiring cost are computed once, then the month loop runs from 1 up to the
horizon, breaking the first time the running balance is not positive. -/
def calculate_runway (s : ScenarioInput) : ScenarioResult :=
  let adjusted_revenue := s.monthly_revenue * (1 + s.price_increase_percent / 100)
  let hiring_costs := s.new_hires * s.salary_per_hire
  let monthly_net :=
    adjusted_revenue - s.monthly_expenses - hiring_costs - s.marketing_spend
  let expTotal := s.monthly_expenses + hiring_costs + s.marketing_spend
  let out := runwayLoop monthly_net adjusted_revenue expTotal
    s.months_to_forecast 1 s.current_cash 0
  { monthly_forecast := out.1
    total_months_of_runway := out.2.1
    final_cash_balance := out.2.2 }

/-- VectorStore of llm_rag_agent.py: a parallel pair of the document list and
the FAISS IndexFlatL2 rows.  The embedding collaborator (np.random.rand in the
source, an external input here) supplies one vector per document; documents
are kept as their text. -/
structure VectorStore where
  dimension : ℕ
  vectors : List (List ℚ)
  documents : List String
deriving DecidableEq, Repr

/-- Empty store of a given dimension. -/
def VectorStore.empty (dim : ℕ) : VectorStore :=
  { dimension := dim, vectors := [], documents := [] }

/-- VectorStore.add_documents (lines 26-41): a no-op on an empty batch,
otherwise the texts are appended to the document list and their vectors to
the index, in order. -/
def VectorStore.add_documents (st : VectorStore)
    (docs : List (String × List ℚ)) : VectorStore :=
  if docs.isEmpty then st
  else
    { st with
      documents := st.documents ++ docs.map (fun p => p.1)
      vectors := st.vectors ++ docs.map (fun p => p.2) }

/-- Squared Euclidean distance, the metric of faiss.IndexFlatL2. -/
def sqdist (q v : List ℚ) : ℚ :=
  (List.zipWith (fun a b => (a - b) ^ 2) q v).sum

/-- Result ordering of an IndexFlatL2 scan: by distance, ties by the smaller
row index (insertion order). -/
def distLe (a b : ℚ × ℤ) : Prop :=
  a.1 < b.1 ∨ (a.1 = b.1 ∧ a.2 ≤ b.2)

instance : DecidableRel distLe := fun a b => by
  unfold distLe; infer_instance

/-- Pair every index row with its distance to the query and its position. -/
def scoreRows (q : List ℚ) : List (List ℚ) → ℤ → List (ℚ × ℤ)
  | [], _ => []
  | v :: vs, i => (sqdist q v, i) :: scoreRows q vs (i + 1)

/-- index.search(query, k) of faiss.IndexFlatL2 for a single query: the row
indices sorted nearest-first (ties by insertion order), truncated to k and
padded with the sentinel -1 when fewer than k rows exist. -/
def faissSearch (vecs : List (List ℚ)) (q : List ℚ) (k : ℕ) : List ℤ :=
  let scored := scoreRows q vecs 0
  let sorted := List.insertionSort distLe scored
  let top := (sorted.map (fun p => p.2)).take k
  top ++ List.replicate (k - top.length) (-1)

/-- Python list indexing documents[idx], which resolves a negative index from
the end of the list. -/
def pyGet (docs : List String) (idx : ℤ) : String :=
  if idx < 0 then docs.getD (docs.length - (-idx).toNat) ""
  else docs.getD idx.toNat ""

/-- VectorStore.search (lines 43-55): empty store short-circuits to an empty
list; otherwise the FAISS indices are filtered with idx < len(documents) and
each surviving index is resolved by Python list indexing.  The padding
sentinel -1 passes this filter and resolves to the LAST document.  The query
embedding (np.random.rand in the source) is an external input. -/
def VectorStore.search (st : VectorStore) (q : List ℚ) (k : ℕ) : List String :=
  if st.documents.isEmpty then []
  else
    (faissSearch st.vectors q k).filterMap (fun idx =>
      if idx < (st.documents.length : ℤ) then some (pyGet st.documents idx)
      else none)

/-- Forecast input of the first documented simulator example. -/
def c2input : ScenarioInput :=
  { current_cash := 10000, monthly_revenue := 5000, monthly_expenses := 6000,
    new_hires := 0, salary_per_hire := 0, marketing_spend := 0,
    price_increase_percent := 0, months_to_forecast := 12 }

/-- Forecast input whose insolvency falls exactly on the final horizon month. -/
def c2edge : ScenarioInput :=
  { current_cash := 1000, monthly_revenue := 0, monthly_expenses := 1000,
    new_hires := 0, salary_per_hire := 0, marketing_spend := 0,
    price_increase_percent := 0, months_to_forecast := 1 }

/-- Forecast input of the second documented simulator example. -/
def c6input : ScenarioInput :=
  { current_cash := 1000, monthly_revenue := 8000, monthly_expenses := 5000,
    new_hires := 0, salary_per_hire := 0, marketing_spend := 0,
    price_increase_percent := 0, months_to_forecast := 6 }

/-- Retrieval store holding exactly two documents. -/
def twoDocStore : VectorStore :=
  (VectorStore.empty 2).add_documents [("doc one", [0, 0]), ("doc two", [1, 0])]

/-- A query embedding nearer to the second stored vector. -/
def twoDocQuery : List ℚ := [9 / 10, 0]

/-- Sample financial context used as concrete input for the store theorems. -/
def sampleCtx : FinancialContext :=
  { id := "ctx_1", company_id := "acme", current_cash := 100000,
    monthly_revenue := 50000, monthly_expenses := 30000,
    marketing_spend := 5000, team_size := 10, average_salary := 4000,
    price_per_unit := 100, units_sold := 500, runway_months := 5,
    last_updated := 0, metadata := "" }

/-- Sample scenario adding 1000 to monthly revenue. -/
def sampleScn : UserScenario :=
  { scenario_id := "scenario_1", company_id := "acme",
    changes := [("monthly_revenue", .num 1000)] }

/-- Sample agent state: one context, one scenario, no analyses. -/
def sampleState : AgentState :=
  { context_store := [("acme", sampleCtx)],
    scenario_store := [("scenario_1", sampleScn)],
    analysis_store := [] }

/-- Changes list exercising both merge branches: a numeric delta on
monthly_revenue and an outright replacement of the id string. -/
def c1changes : List (String × PyVal) :=
  [("monthly_revenue", .num 1000), ("id", .str "ctx_2")]

/-- Expected updated context for sampleCtx under c1changes. -/
def c1upd : FinancialContext :=
  { sampleCtx with monthly_revenue := 50000 + 1000, id := "ctx_2" }

/-- Context with zero monthly revenue, the unguarded denominator. -/
def zeroRevCtx : FinancialContext :=
  { sampleCtx with monthly_revenue := 0 }

/-- Updated context after a +1000 revenue change on zeroRevCtx (the revenue
cell holds the unevaluated Python sum 0 + 1000). -/
def zeroRevUpd : FinancialContext :=
  { zeroRevCtx with monthly_revenue := 0 + 1000 }

/-- Context with zero marketing spend, for the guarded-division contrast. -/
def zeroMktCtx : FinancialContext :=
  { sampleCtx with marketing_spend := 0 }

/-- Updated context after a +500 marketing change on zeroMktCtx. -/
def zeroMktUpd : FinancialContext :=
  { zeroMktCtx with marketing_spend := 0 + 500 }

/-- Agent state whose stored context has zero monthly revenue. -/
def zeroRevState : AgentState :=
  { context_store := [("acme", zeroRevCtx)],
    scenario_store := [("scenario_1", sampleScn)],
    analysis_store := [] }

/-- Scenario whose changes add a string to a numeric field (raises TypeError
in the merge loop). -/
def badTypeScn : UserScenario :=
  { scenario_id := "scenario_2", company_id := "acme",
    changes := [("monthly_revenue", .str "lots")] }

/-- Agent state holding badTypeScn together with sampleCtx. -/
def badTypeState : AgentState :=
  { context_store := [("acme", sampleCtx)],
    scenario_store := [("scenario_2", badTypeScn)],
    analysis_store := [] }

/-- Scenario whose only change replaces the id string (no arithmetic). -/
def idOnlyScn : UserScenario :=
  { scenario_id := "scenario_1", company_id := "acme",
    changes := [("id", .str "ctx_9")] }

/-- Agent state holding idOnlyScn together with sampleCtx. -/
def idOnlyState : AgentState :=
  { context_store := [("acme", sampleCtx)],
    scenario_store := [("scenario_1", idOnlyScn)],
    analysis_store := [] }

/-- Updated context produced by idOnlyScn on sampleCtx. -/
def idOnlyUpd : FinancialContext :=
  { sampleCtx with id := "ctx_9" }

/-- Analysis record produced by a successful analyze_scenario run on
idOnlyState with a succeeding generation call answering fine. -/
def idOnlyAnalysis : FinancialAnalysis :=
  { analysis_id := "analysis_1", scenario_id := "scenario_1",
    company_id := "acme", original_context := sampleCtx,
    updated_context := idOnlyUpd,
    impact_analysis := calculate_impact sampleCtx idOnlyUpd,
    summary := "# Financial Impact Analysis\n\nfine" }

/-- Agent state after that successful run. -/
def idOnlyPost : AgentState :=
  { context_store := [("acme", sampleCtx)],
    scenario_store := [("scenario_1", idOnlyScn)],
    analysis_store := [("analysis_1", idOnlyAnalysis)] }

/-! Helper lemmas about the forecast loop. -/

theorem runwayLoop_length_le (net a e : ℚ) :
    ∀ (r m : ℕ) (bal : ℚ) (run : ℕ),
      (runwayLoop net a e r m bal run).1.length ≤ r := by
  intro r
  induction r with
  | zero => intro m bal run; simp [runwayLoop]
  | succ n ih =>
    intro m bal run
    simp only [runwayLoop]
    by_cases h : bal + net ≤ 0
    · simp [h]
    · simpa [h] using ih (m + 1) (bal + net) (if 0 < bal + net then m else run)

theorem runwayLoop_dropLast_pos (net a e : ℚ) :
    ∀ (r m : ℕ) (bal : ℚ) (run : ℕ) (x : ForecastEntry),
      x ∈ (runwayLoop net a e r m bal run).1.dropLast → 0 < x.balance := by
  intro r
  induction r with
  | zero => intro m bal run x hx; simp [runwayLoop] at hx
  | succ n ih =>
    intro m bal run x hx
    simp only [runwayLoop] at hx
    by_cases h : bal + net ≤ 0
    · simp [h] at hx
    · simp only [if_neg h] at hx
      rcases hr : (runwayLoop net a e n (m + 1) (bal + net)
          (if 0 < bal + net then m else run)).1 with _ | ⟨y, ys⟩
      · rw [hr] at hx
        simp at hx
      · rw [hr] at hx
        rw [List.dropLast_cons_of_ne_nil (by simp)] at hx
        rcases List.mem_cons.1 hx with h1 | h2
        · subst h1
          simpa using lt_of_not_ge h
        · have := ih (m + 1) (bal + net) (if 0 < bal + net then m else run) x
          rw [hr] at this
          exact this h2

theorem runwayLoop_all_pos (net a e : ℚ) :
    ∀ (r m : ℕ) (bal : ℚ) (run : ℕ),
      (∀ x ∈ (runwayLoop net a e r m bal run).1, 0 < x.balance) →
      (runwayLoop net a e r m bal run).1.length = r ∧
      (runwayLoop net a e r m bal run).2.1 = (if r = 0 then run else m + r - 1) := by
  intro r
  induction r with
  | zero => intro m bal run _; simp [runwayLoop]
  | succ n ih =>
    intro m bal run hall
    simp only [runwayLoop] at hall ⊢
    by_cases h : bal + net ≤ 0
    · exfalso
      have hmem := hall ⟨m, a, e, net, bal + net⟩ (by simp [h])
      simp at hmem
      exact absurd hmem (not_lt.2 h)
    · have hpos : 0 < bal + net := lt_of_not_ge h
      simp only [if_neg h, if_pos hpos] at hall ⊢
      have hall' : ∀ x ∈ (runwayLoop net a e n (m + 1) (bal + net) m).1,
          0 < x.balance := by
        intro x hx
        exact hall x (by simp [hx])
      obtain ⟨hlen, hrun⟩ := ih (m + 1) (bal + net) m hall'
      refine ⟨by simp [hlen], ?_⟩
      rw [hrun]
      rcases Nat.eq_zero_or_pos n with h0 | h0
      · subst h0
        simp
      · rw [if_neg (Nat.pos_iff_ne_zero.1 h0), if_neg (Nat.succ_ne_zero n)]
        omega

/-- C2 (amended).  For current_cash=10000, monthly_revenue=5000,
monthly_expenses=6000, no hires, no marketing, no price increase and a
12-month horizon, calculate_runway produces balances decreasing by exactly
1000 per month, stops at month 10 with balance exactly 0, returns 10 forecast
rows and total_months_of_runway = 9.  In general the loop stops the first
month the running balance is not positive: every row before the last has a
positive balance and the forecast is never longer than the horizon (it equals
the horizon when insolvency strikes exactly on the last month, which is the
amendment to the claim's strictly-shorter wording). -/
theorem c2_insolvency_stops_forecast :
    ((calculate_runway c2input).monthly_forecast.map (fun x => x.balance) =
      [9000, 8000, 7000, 6000, 5000, 4000, 3000, 2000, 1000, 0]) ∧
    (calculate_runway c2input).monthly_forecast.length = 10 ∧
    (calculate_runway c2input).total_months_of_runway = 9 ∧
    (calculate_runway c2input).final_cash_balance = 0 ∧
    (∀ s : ScenarioInput,
      (calculate_runway s).monthly_forecast.length ≤ s.months_to_forecast) ∧
    (∀ s : ScenarioInput, ∀ x ∈ (calculate_runway s).monthly_forecast.dropLast,
      0 < x.balance) := by
  refine ⟨?_, ?_, ?_, ?_, ?_, ?_⟩
  · norm_num [c2input, calculate_runway, runwayLoop]
  · norm_num [c2input, calculate_runway, runwayLoop]
  · norm_num [c2input, calculate_runway, runwayLoop]
  · norm_num [c2input, calculate_runway, runwayLoop]
  · intro s
    simpa [calculate_runway] using
      runwayLoop_length_le _ _ _ s.months_to_forecast 1 s.current_cash 0
  · intro s x hx
    simp only [calculate_runway] at hx
    exact runwayLoop_dropLast_pos _ _ _ s.months_to_forecast 1 s.current_cash 0 x hx

/-- Witness for c2_insolvency_stops_forecast: instantiate the universal parts
at the documented example, discharging the membership hypothesis at the first
forecast row. -/
theorem c2_insolvency_stops_forecast_witness :
    (calculate_runway c2input).monthly_forecast.length ≤
      c2input.months_to_forecast ∧
    0 < (ForecastEntry.mk 1 5000 6000 (-1000) 9000).balance :=
  ⟨c2_insolvency_stops_forecast.2.2.2.2.1 c2input,
   c2_insolvency_stops_forecast.2.2.2.2.2 c2input
     (ForecastEntry.mk 1 5000 6000 (-1000) 9000)
     (by norm_num [c2input, calculate_runway, runwayLoop])⟩

/-- C2 as literally stated is false: with current_cash=1000, zero revenue,
monthly_expenses=1000 and a 1-month horizon, the balance first reaches 0 at
month 1 = N, the loop stops there, and the forecast sequence has length N,
not shorter than the horizon. -/
theorem c2_counterexample_length_equals_horizon :
    (calculate_runway c2edge).final_cash_balance ≤ 0 ∧
    (calculate_runway c2edge).monthly_forecast.length = 1 ∧
    c2edge.months_to_forecast = 1 ∧
    decide ((calculate_runway c2edge).monthly_forecast.length <
      c2edge.months_to_forecast) = false := by
  refine ⟨?_, ?_, ?_, ?_⟩ <;>
    norm_num [c2edge, calculate_runway, runwayLoop]

/-- C5.  The impact-delta record of RAGAgent._calculate_impact: profit impact
is the difference of the two profit figures, and the four other entries are
plain field differences updated - original. -/
theorem c5_impact_delta_formulas (original updated : FinancialContext) :
    (calculate_impact original updated).profit_impact =
      (updated.monthly_revenue - updated.monthly_expenses) -
      (original.monthly_revenue - original.monthly_expenses) ∧
    (calculate_impact original updated).revenue_change =
      updated.monthly_revenue - original.monthly_revenue ∧
    (calculate_impact original updated).expense_change =
      updated.monthly_expenses - original.monthly_expenses ∧
    (calculate_impact original updated).marketing_impact =
      updated.marketing_spend - original.marketing_spend ∧
    (calculate_impact original updated).runway_impact =
      updated.runway_months - original.runway_months :=
  ⟨rfl, rfl, rfl, rfl, rfl⟩

/-- C6.  For monthly_revenue=8000, monthly_expenses=5000, current_cash=1000
and a 6-month horizon, the simulation never reaches insolvency: 6 forecast
rows, total_months_of_runway = 6, final balance 19000.  In general, when every
produced row keeps a positive balance the loop runs to completion: the
sequence length and the runway count both equal the horizon. -/
theorem c6_runway_full_horizon :
    (calculate_runway c6input).monthly_forecast.length = 6 ∧
    (calculate_runway c6input).total_months_of_runway = 6 ∧
    (calculate_runway c6input).final_cash_balance = 19000 ∧
    ∀ s : ScenarioInput,
      (∀ x ∈ (calculate_runway s).monthly_forecast, 0 < x.balance) →
      (calculate_runway s).monthly_forecast.length = s.months_to_forecast ∧
      (calculate_runway s).total_months_of_runway = s.months_to_forecast := by
  refine ⟨?_, ?_, ?_, ?_⟩
  · norm_num [c6input, calculate_runway, runwayLoop]
  · norm_num [c6input, calculate_runway, runwayLoop]
  · norm_num [c6input, calculate_runway, runwayLoop]
  · intro s hall
    simp only [calculate_runway] at hall ⊢
    obtain ⟨hlen, hrun⟩ :=
      runwayLoop_all_pos _ _ _ s.months_to_forecast 1 s.current_cash 0 hall
    refine ⟨hlen, ?_⟩
    rw [hrun]
    rcases Nat.eq_zero_or_pos s.months_to_forecast with h0 | h0
    · simp [h0]
    · rw [if_neg (Nat.pos_iff_ne_zero.1 h0)]
      omega

/-- Witness for c6_runway_full_horizon: the all-months-positive hypothesis is
discharged at the documented example itself. -/
theorem c6_runway_full_horizon_witness :
    (calculate_runway c6input).monthly_forecast.length =
      c6input.months_to_forecast ∧
    (calculate_runway c6input).total_months_of_runway =
      c6input.months_to_forecast :=
  c6_runway_full_horizon.2.2.2 c6input
    (by norm_num [c6input, calculate_runway, runwayLoop])

/-! Helper lemmas about the dict operations of the merge loop. -/

theorem dictGet_cons (p : String × PyVal) (d : List (String × PyVal)) (k : String) :
    dictGet (p :: d) k = if p.1 = k then some p.2 else dictGet d k := by
  by_cases h : p.1 = k
  · simp [dictGet, List.find?_cons_of_pos, h]
  · simp [dictGet, List.find?_cons_of_neg, h]

theorem dictSet_cons (p : String × PyVal) (d : List (String × PyVal))
    (k : String) (v : PyVal) :
    dictSet (p :: d) k v = (if p.1 = k then (k, v) else p) :: dictSet d k v := by
  simp [dictSet]

theorem dictSet_keys (d : List (String × PyVal)) (k : String) (v : PyVal) :
    (dictSet d k v).map Prod.fst = d.map Prod.fst := by
  induction d with
  | nil => rfl
  | cons p d ih =>
    rw [dictSet_cons]
    by_cases h : p.1 = k
    · simp [h, ih]
    · simp [h, ih]

theorem dictGet_none_of_not_mem (d : List (String × PyVal)) (k : String)
    (h : k ∉ d.map Prod.fst) : dictGet d k = none := by
  induction d with
  | nil => rfl
  | cons p d ih =>
    rw [dictGet_cons]
    simp only [List.map_cons, List.mem_cons] at h
    push_neg at h
    rw [if_neg (fun hk => h.1 hk.symm), ih h.2]

theorem dictGet_dictSet_self (d : List (String × PyVal)) (k : String)
    (v old : PyVal) (h : dictGet d k = some old) :
    dictGet (dictSet d k v) k = some v := by
  induction d with
  | nil => simp [dictGet] at h
  | cons p d ih =>
    rw [dictGet_cons] at h
    rw [dictSet_cons, dictGet_cons]
    by_cases hp : p.1 = k
    · simp [hp]
    · rw [if_neg hp] at h
      simp only [if_neg hp]
      exact ih h

theorem dictGet_dictSet_ne (d : List (String × PyVal)) (k k' : String)
    (v : PyVal) (h : k' ≠ k) :
    dictGet (dictSet d k v) k' = dictGet d k' := by
  induction d with
  | nil => rfl
  | cons p d ih =>
    rcases p with ⟨pk, pv⟩
    rw [dictSet_cons, dictGet_cons, dictGet_cons]
    by_cases hp : pk = k
    · subst hp
      simp only [if_pos rfl]
      simp [Ne.symm h, ih]
    · simp only [if_neg hp]
      by_cases hq : pk = k'
      · simp [hq]
      · simp only [if_neg hq]
        exact ih

/-! Evaluation lemmas for one step of the merge loop. -/

theorem applyChange_absent (d : List (String × PyVal)) (k : String) (v : PyVal)
    (h : dictGet d k = none) : applyChange d (k, v) = .ok d := by
  unfold applyChange
  rw [h]

theorem applyChange_eval_num (d : List (String × PyVal)) (k : String) (a b : ℚ)
    (hg : dictGet d k = some (.num a)) :
    applyChange d (k, .num b) = .ok (dictSet d k (.num (a + b))) := by
  unfold applyChange
  rw [hg]

theorem applyChange_eval_type_err (d : List (String × PyVal)) (k : String)
    (a : ℚ) (v : PyVal) (hg : dictGet d k = some (.num a))
    (hv : v.isNumeric = false) :
    applyChange d (k, v) = .error .typeError := by
  unfold applyChange
  rw [hg]
  rcases v with b | s | t | o
  · simp [PyVal.isNumeric] at hv
  · rfl
  · rfl
  · rfl

theorem applyChange_eval_nonnum (d : List (String × PyVal)) (k : String)
    (v old : PyVal) (hg : dictGet d k = some old)
    (hn : old.isNumeric = false) :
    applyChange d (k, v) = .ok (dictSet d k v) := by
  unfold applyChange
  rw [hg]
  rcases old with a | s | t | o
  · simp [PyVal.isNumeric] at hn
  · rfl
  · rfl
  · rfl

theorem applyChange_keys (d d₁ : List (String × PyVal)) (k : String) (v : PyVal)
    (h : applyChange d (k, v) = .ok d₁) : d₁.map Prod.fst = d.map Prod.fst := by
  rcases hg : dictGet d k with _ | old
  · rw [applyChange_absent d k v hg] at h
    injection h with h
    rw [← h]
  · rcases old with a | s | t | o
    · rcases hv : v.isNumeric with _ | _
      · rw [applyChange_eval_type_err d k a v hg hv] at h
        exact absurd h (by simp)
      · rcases v with b | s | t | o
        · rw [applyChange_eval_num d k a b hg] at h
          injection h with h
          rw [← h, dictSet_keys]
        all_goals simp [PyVal.isNumeric] at hv
    all_goals
      rw [applyChange_eval_nonnum d k v _ hg rfl] at h
      injection h with h
      rw [← h, dictSet_keys]

theorem applyChange_other (d d₁ : List (String × PyVal)) (k k' : String)
    (v : PyVal) (h : applyChange d (k, v) = .ok d₁) (hk : k' ≠ k) :
    dictGet d₁ k' = dictGet d k' := by
  rcases hg : dictGet d k with _ | old
  · rw [applyChange_absent d k v hg] at h
    injection h with h
    rw [← h]
  · rcases old with a | s | t | o
    · rcases hv : v.isNumeric with _ | _
      · rw [applyChange_eval_type_err d k a v hg hv] at h
        exact absurd h (by simp)
      · rcases v with b | s | t | o
        · rw [applyChange_eval_num d k a b hg] at h
          injection h with h
          rw [← h, dictGet_dictSet_ne _ _ _ _ hk]
        all_goals simp [PyVal.isNumeric] at hv
    all_goals
      rw [applyChange_eval_nonnum d k v _ hg rfl] at h
      injection h with h
      rw [← h, dictGet_dictSet_ne _ _ _ _ hk]

theorem applyChange_num (d d₁ : List (String × PyVal)) (k : String)
    (v : PyVal) (a : ℚ) (hg : dictGet d k = some (.num a))
    (h : applyChange d (k, v) = .ok d₁) :
    ∃ b, v = .num b ∧ dictGet d₁ k = some (.num (a + b)) := by
  rcases hv : v.isNumeric with _ | _
  · rw [applyChange_eval_type_err d k a v hg hv] at h
    exact absurd h (by simp)
  · rcases v with b | s | t | o
    · refine ⟨b, rfl, ?_⟩
      rw [applyChange_eval_num d k a b hg] at h
      injection h with h
      rw [← h]
      exact dictGet_dictSet_self d k _ _ hg
    all_goals simp [PyVal.isNumeric] at hv

theorem applyChange_nonnum (d d₁ : List (String × PyVal)) (k : String)
    (v old : PyVal) (hg : dictGet d k = some old)
    (hn : old.isNumeric = false) (h : applyChange d (k, v) = .ok d₁) :
    dictGet d₁ k = some v := by
  rw [applyChange_eval_nonnum d k v old hg hn] at h
  injection h with h
  rw [← h]
  exact dictGet_dictSet_self d k _ _ hg

/-! Lemmas about the whole merge loop. -/

theorem mergeChanges_keys :
    ∀ (cs d d' : List (String × PyVal)), mergeChanges d cs = .ok d' →
      d'.map Prod.fst = d.map Prod.fst := by
  intro cs
  induction cs with
  | nil =>
    intro d d' h
    injection h with h
    rw [← h]
  | cons c cs ih =>
    intro d d' h
    rcases c with ⟨k, v⟩
    rw [mergeChanges] at h
    rcases ha : applyChange d (k, v) with e | d₁
    · rw [ha] at h
      exact absurd h (by simp)
    · rw [ha] at h
      simp only at h
      rw [ih d₁ d' h, applyChange_keys d d₁ k v ha]

theorem mergeChanges_absent (k : String) :
    ∀ (cs d d' : List (String × PyVal)), k ∉ cs.map Prod.fst →
      mergeChanges d cs = .ok d' → dictGet d' k = dictGet d k := by
  intro cs
  induction cs with
  | nil =>
    intro d d' _ h
    injection h with h
    rw [← h]
  | cons c cs ih =>
    intro d d' hk h
    rcases c with ⟨k₀, v₀⟩
    simp only [List.map_cons, List.mem_cons] at hk
    push_neg at hk
    rw [mergeChanges] at h
    rcases ha : applyChange d (k₀, v₀) with e | d₁
    · rw [ha] at h
      exact absurd h (by simp)
    · rw [ha] at h
      simp only at h
      rw [ih d₁ d' hk.2 h, applyChange_other d d₁ k₀ k v₀ ha hk.1]

theorem mergeChanges_changed (k : String) (v : PyVal) :
    ∀ (cs d d' : List (String × PyVal)),
      (cs.map Prod.fst).Nodup → (k, v) ∈ cs →
      mergeChanges d cs = .ok d' →
      (∀ a, dictGet d k = some (.num a) →
        ∃ b, v = .num b ∧ dictGet d' k = some (.num (a + b))) ∧
      (∀ old, dictGet d k = some old → old.isNumeric = false →
        dictGet d' k = some v) := by
  intro cs
  induction cs with
  | nil =>
    intro d d' _ hm
    exact absurd hm (by simp)
  | cons c cs ih =>
    intro d d' hnd hm h
    rcases c with ⟨k₀, v₀⟩
    simp only [List.map_cons, List.nodup_cons] at hnd
    rw [mergeChanges] at h
    rcases ha : applyChange d (k₀, v₀) with e | d₁
    · rw [ha] at h
      exact absurd h (by simp)
    · rw [ha] at h
      simp only at h
      rcases List.mem_cons.1 hm with hhead | htail
      · have hk : k = k₀ := congrArg Prod.fst hhead
        have hv : v = v₀ := congrArg Prod.snd hhead
        subst hk
        subst hv
        have habs : dictGet d' k = dictGet d₁ k :=
          mergeChanges_absent k cs d₁ d' hnd.1 h
        constructor
        · intro a hga
          obtain ⟨b, hb, hd₁⟩ := applyChange_num d d₁ k v a hga ha
          exact ⟨b, hb, by rw [habs, hd₁]⟩
        · intro old hgo hno
          rw [habs]
          exact applyChange_nonnum d d₁ k v old hgo hno ha
      · have hk : k ≠ k₀ := by
          intro hkk
          exact hnd.1 (hkk ▸ (List.mem_map.2 ⟨(k, v), htail, rfl⟩))
        have hsame : dictGet d₁ k = dictGet d k :=
          applyChange_other d d₁ k₀ k v₀ ha hk
        obtain ⟨h1, h2⟩ := ih d₁ d' hnd.2 htail h
        constructor
        · intro a hga
          exact h1 a (by rw [hsame, hga])
        · intro old hgo hno
          exact h2 old (by rw [hsame, hgo]) hno

theorem mergeChanges_filter_unknown (k : String) :
    ∀ (cs d : List (String × PyVal)), k ∉ d.map Prod.fst →
      mergeChanges d cs = mergeChanges d (cs.filter (fun p => p.1 != k)) := by
  intro cs
  induction cs with
  | nil => intro d _; rfl
  | cons c cs ih =>
    intro d hd
    rcases c with ⟨k₀, v₀⟩
    by_cases hk : k₀ = k
    · subst hk
      have hskip : applyChange d (k₀, v₀) = .ok d :=
        applyChange_absent d k₀ v₀ (dictGet_none_of_not_mem d k₀ hd)
      rw [mergeChanges, hskip]
      simp only
      have hfil : List.filter (fun p => p.1 != k₀) ((k₀, v₀) :: cs) =
          List.filter (fun p => p.1 != k₀) cs := by
        simp [List.filter_cons]
      rw [hfil]
      exact ih d hd
    · have hfil : List.filter (fun p => p.1 != k) ((k₀, v₀) :: cs) =
          (k₀, v₀) :: List.filter (fun p => p.1 != k) cs := by
        simp [List.filter_cons, hk]
      rw [hfil, mergeChanges, mergeChanges]
      rcases ha : applyChange d (k₀, v₀) with e | d₁
      · rfl
      · simp only
        have hd₁ : k ∉ d₁.map Prod.fst := by
          rw [applyChange_keys d d₁ k₀ v₀ ha]
          exact hd
        exact ih d₁ hd₁

theorem contextDict_keys (c : FinancialContext) :
    (contextDict c).map Prod.fst = schemaKeys := rfl

theorem pyTrunc_intCast (n : ℤ) : pyTrunc (n : ℚ) = n := by
  unfold pyTrunc
  split <;> simp

theorem v1Reserialize_none (k : String) : v1Reserialize k none = none := by
  unfold v1Reserialize
  split_ifs <;> rfl

theorem mem_schema_of_mem_str (k : String) (h : k ∈ strFields) :
    k ∈ schemaKeys := by
  simp only [strFields, List.mem_cons, List.not_mem_nil, or_false] at h
  rcases h with rfl | rfl <;> decide

theorem mem_schema_of_mem_int (k : String) (h : k ∈ intFields) :
    k ∈ schemaKeys := by
  simp only [intFields, List.mem_cons, List.not_mem_nil, or_false] at h
  rcases h with rfl | rfl <;> decide

theorem mem_schema_of_mem_float (k : String) (h : k ∈ floatFields) :
    k ∈ schemaKeys := by
  simp only [floatFields, List.mem_cons, List.not_mem_nil, or_false] at h
  rcases h with rfl | rfl | rfl | rfl | rfl | rfl | rfl <;> decide

theorem v1Reserialize_float (k : String) (h : k ∈ floatFields) (q : ℚ) :
    v1Reserialize k (some (.num q)) = some (.num q) := by
  simp only [floatFields, List.mem_cons, List.not_mem_nil, or_false] at h
  rcases h with rfl | rfl | rfl | rfl | rfl | rfl | rfl <;> rfl

theorem v1Reserialize_int (k : String) (h : k ∈ intFields) (q : ℚ) :
    v1Reserialize k (some (.num q)) = some (.num ((pyTrunc q : ℤ) : ℚ)) := by
  simp only [intFields, List.mem_cons, List.not_mem_nil, or_false] at h
  rcases h with rfl | rfl <;> rfl

theorem v1Reserialize_ctx_self (ctx : FinancialContext) (k : String) :
    v1Reserialize k (dictGet (contextDict ctx) k) =
      dictGet (contextDict ctx) k := by
  by_cases hmem : k ∈ schemaKeys
  · simp only [schemaKeys, List.mem_cons, List.not_mem_nil, or_false] at hmem
    rcases hmem with rfl | rfl | rfl | rfl | rfl | rfl | rfl | rfl | rfl |
      rfl | rfl | rfl | rfl
    · rfl
    · rfl
    · rfl
    · rfl
    · rfl
    · rfl
    · show some (PyVal.num ((pyTrunc (ctx.team_size : ℚ) : ℤ) : ℚ)) =
        some (PyVal.num (ctx.team_size : ℚ))
      rw [pyTrunc_intCast]
    · rfl
    · rfl
    · show some (PyVal.num ((pyTrunc (ctx.units_sold : ℚ) : ℤ) : ℚ)) =
        some (PyVal.num (ctx.units_sold : ℚ))
      rw [pyTrunc_intCast]
    · rfl
    · rfl
    · rfl
  · rw [dictGet_none_of_not_mem _ k (by rw [contextDict_keys]; exact hmem),
      v1Reserialize_none]

theorem fromDict_reserialize (d : List (String × PyVal))
    (c : FinancialContext) (h : fromDict d = some c) :
    ∀ k, dictGet (contextDict c) k = v1Reserialize k (dictGet d k) := by
  rw [fromDict] at h
  obtain ⟨i, hi, h⟩ := Option.bind_eq_some.1 h
  obtain ⟨cid, hcid, h⟩ := Option.bind_eq_some.1 h
  obtain ⟨cc, hcc, h⟩ := Option.bind_eq_some.1 h
  obtain ⟨mr, hmr, h⟩ := Option.bind_eq_some.1 h
  obtain ⟨me, hme, h⟩ := Option.bind_eq_some.1 h
  obtain ⟨ms, hms, h⟩ := Option.bind_eq_some.1 h
  obtain ⟨ts, hts, h⟩ := Option.bind_eq_some.1 h
  obtain ⟨sal, hsal, h⟩ := Option.bind_eq_some.1 h
  obtain ⟨ppu, hppu, h⟩ := Option.bind_eq_some.1 h
  obtain ⟨us, hus, h⟩ := Option.bind_eq_some.1 h
  obtain ⟨rm, hrm, h⟩ := Option.bind_eq_some.1 h
  obtain ⟨lu, hlu, h⟩ := Option.bind_eq_some.1 h
  obtain ⟨md, hmd, h⟩ := Option.bind_eq_some.1 h
  injection h with h
  subst h
  intro k
  by_cases hmem : k ∈ schemaKeys
  · simp only [schemaKeys, List.mem_cons, List.not_mem_nil, or_false] at hmem
    rcases hmem with rfl | rfl | rfl | rfl | rfl | rfl | rfl | rfl | rfl |
      rfl | rfl | rfl | rfl
    · show _ = (v1Str (dictGet d "id")).map PyVal.str
      rw [hi]
      rfl
    · show _ = (v1Str (dictGet d "company_id")).map PyVal.str
      rw [hcid]
      rfl
    · show _ = (v1Float (dictGet d "current_cash")).map PyVal.num
      rw [hcc]
      rfl
    · show _ = (v1Float (dictGet d "monthly_revenue")).map PyVal.num
      rw [hmr]
      rfl
    · show _ = (v1Float (dictGet d "monthly_expenses")).map PyVal.num
      rw [hme]
      rfl
    · show _ = (v1Float (dictGet d "marketing_spend")).map PyVal.num
      rw [hms]
      rfl
    · show _ = (v1Int (dictGet d "team_size")).map
        (fun n : ℤ => PyVal.num (n : ℚ))
      rw [hts]
      rfl
    · show _ = (v1Float (dictGet d "average_salary")).map PyVal.num
      rw [hsal]
      rfl
    · show _ = (v1Float (dictGet d "price_per_unit")).map PyVal.num
      rw [hppu]
      rfl
    · show _ = (v1Int (dictGet d "units_sold")).map
        (fun n : ℤ => PyVal.num (n : ℚ))
      rw [hus]
      rfl
    · show _ = (v1Float (dictGet d "runway_months")).map PyVal.num
      rw [hrm]
      rfl
    · show _ = (v1Dt (dictGet d "last_updated")).map PyVal.dt
      rw [hlu]
      rfl
    · show _ = (v1Obj (dictGet d "metadata")).map PyVal.obj
      rw [hmd]
      rfl
  · rw [dictGet_none_of_not_mem _ k (by rw [contextDict_keys]; exact hmem)]
    unfold v1Reserialize
    rw [if_neg (fun hin => hmem (mem_schema_of_mem_str k hin)),
      if_neg (fun hin => hmem (mem_schema_of_mem_int k hin)),
      if_neg (fun hin => hmem (by rw [hin]; decide)),
      if_neg (fun hin => hmem (by rw [hin]; decide)),
      if_neg (fun hin => hmem (mem_schema_of_mem_float k hin))]

/-- C1 (amended).  For a scenario whose changes name only fields of the
context schema (each at most once, as in a Python dict), whenever the
merge-and-revalidate step of analyze_scenario succeeds: a changed float field
holds the original value plus the (necessarily numeric) change amount; a
changed int field (team_size, units_sold) holds pydantic v1's int(original +
change), the sum truncated toward zero; a changed field whose original value
is not numeric holds the change value as coerced by its field's pydantic v1
validator (the change value itself when the type already matches, its string
form when a number replaces a string field); and every field not named in
the changes is identical to the original.  The amendment relative to the
claim is the truncation on the two int fields and the v1 coercion on
replacements. -/
theorem c1_merge_with_v1_validation (ctx upd : FinancialContext)
    (cs : List (String × PyVal))
    (hnd : (cs.map Prod.fst).Nodup)
    (_hkeys : ∀ p ∈ cs, p.1 ∈ (contextDict ctx).map Prod.fst)
    (hok : mergeAndValidate ctx cs = .ok upd) :
    (∀ k v a, (k, v) ∈ cs → k ∈ floatFields →
      dictGet (contextDict ctx) k = some (.num a) →
      ∃ b, v = .num b ∧ dictGet (contextDict upd) k = some (.num (a + b))) ∧
    (∀ k v a, (k, v) ∈ cs → k ∈ intFields →
      dictGet (contextDict ctx) k = some (.num a) →
      ∃ b, v = .num b ∧ dictGet (contextDict upd) k =
        some (.num ((pyTrunc (a + b) : ℤ) : ℚ))) ∧
    (∀ k v old, (k, v) ∈ cs → dictGet (contextDict ctx) k = some old →
      old.isNumeric = false →
      dictGet (contextDict upd) k = v1Reserialize k (some v)) ∧
    (∀ k, k ∉ cs.map Prod.fst →
      dictGet (contextDict upd) k = dictGet (contextDict ctx) k) := by
  unfold mergeAndValidate at hok
  rcases hm : mergeChanges (contextDict ctx) cs with e | d'
  · rw [hm] at hok
    exact absurd hok (by simp)
  · rw [hm] at hok
    simp only at hok
    rcases hf : fromDict d' with _ | c
    · rw [hf] at hok
      exact absurd hok (by simp)
    · rw [hf] at hok
      simp only at hok
      injection hok with hok
      subst hok
      have hbr := fromDict_reserialize d' _ hf
      refine ⟨?_, ?_, ?_, ?_⟩
      · intro k v a hkv hkf hga
        obtain ⟨b, hb, hd⟩ :=
          (mergeChanges_changed k v cs (contextDict ctx) d' hnd hkv hm).1 a hga
        exact ⟨b, hb, by rw [hbr k, hd, v1Reserialize_float k hkf]⟩
      · intro k v a hkv hki hga
        obtain ⟨b, hb, hd⟩ :=
          (mergeChanges_changed k v cs (contextDict ctx) d' hnd hkv hm).1 a hga
        exact ⟨b, hb, by rw [hbr k, hd, v1Reserialize_int k hki]⟩
      · intro k v old hkv hgo hno
        have hd := (mergeChanges_changed k v cs (contextDict ctx) d'
          hnd hkv hm).2 old hgo hno
        rw [hbr k, hd]
      · intro k hk
        have hd := mergeChanges_absent k cs (contextDict ctx) d' hk hm
        rw [hbr k, hd, v1Reserialize_ctx_self ctx k]

/-- Witness for c1_merge_with_v1_validation: sampleCtx with a numeric delta
on monthly_revenue and a string replacement of id, all hypotheses discharged
by computation. -/
theorem c1_merge_with_v1_validation_witness :
    (∃ b, PyVal.num 1000 = PyVal.num b ∧
      dictGet (contextDict c1upd) "monthly_revenue" =
        some (.num (50000 + b))) ∧
    dictGet (contextDict c1upd) "id" =
      v1Reserialize "id" (some (.str "ctx_2")) ∧
    dictGet (contextDict c1upd) "current_cash" =
      dictGet (contextDict sampleCtx) "current_cash" := by
  have h := c1_merge_with_v1_validation sampleCtx c1upd c1changes
    (by decide) (by decide) rfl
  exact ⟨h.1 "monthly_revenue" (.num 1000) 50000 (by decide) (by decide) rfl,
    h.2.2.1 "id" (.str "ctx_2") (.str "ctx_1") (by decide) rfl rfl,
    h.2.2.2 "current_cash" (by decide)⟩

/-- C1 as stated is false on the program: pydantic v1's re-validation
coerces.  Adding 1/2 to team_size 10 stores 10 (int truncation), not the
claimed 10 + 1/2; replacing id with the number 5 stores the string form of 5,
not the change value 5 itself.  Both runs validate successfully. -/
theorem c1_counterexample_v1_coercion :
    mergeAndValidate sampleCtx [("team_size", PyVal.num (1 / 2))] =
      .ok { sampleCtx with team_size := 10 } ∧
    (10 : ℚ) < ((10 : ℤ) : ℚ) + 1 / 2 ∧
    mergeAndValidate sampleCtx [("id", PyVal.num 5)] =
      .ok { sampleCtx with id := "5" } ∧
    decide (PyVal.str "5" = PyVal.num 5) = false := by
  have htr : pyTrunc (((10 : ℤ) : ℚ) + 1 / 2) = 10 := by
    norm_num [pyTrunc]
  refine ⟨?_, by norm_num, ?_, by decide⟩
  · have heval : mergeAndValidate sampleCtx [("team_size", PyVal.num (1 / 2))] =
        .ok { sampleCtx with team_size := pyTrunc (((10 : ℤ) : ℚ) + 1 / 2) } :=
      rfl
    rw [heval, htr]
  · have hid : toString (5 : ℚ) = "5" := rfl
    have heval : mergeAndValidate sampleCtx [("id", PyVal.num 5)] =
        .ok { sampleCtx with id := toString (5 : ℚ) } := rfl
    rw [heval, hid]

/-! Helper lemmas about the keyed stores. -/

theorem lookup_cons {α : Type} (p : String × α) (d : List (String × α))
    (k : String) :
    lookup (p :: d) k = if p.1 = k then some p.2 else lookup d k := by
  by_cases h : p.1 = k
  · simp [lookup, List.find?_cons_of_pos, h]
  · simp [lookup, List.find?_cons_of_neg, h]

theorem lookup_append_fresh {α : Type} :
    ∀ (d : List (String × α)) (k : String) (v : α),
      lookup d k = none → lookup (d ++ [(k, v)]) k = some v := by
  intro d
  induction d with
  | nil =>
    intro k v _
    rw [List.nil_append, lookup_cons]
    simp
  | cons p d ih =>
    intro k v h
    rw [lookup_cons] at h
    rw [List.cons_append, lookup_cons]
    by_cases hp : p.1 = k
    · rw [if_pos hp] at h
      exact absurd h (by simp)
    · rw [if_neg hp] at h
      rw [if_neg hp]
      exact ih k v h

theorem any_key_eq_false {α : Type} :
    ∀ (d : List (String × α)) (k : String), lookup d k = none →
      d.any (fun p => p.1 = k) = false := by
  intro d
  induction d with
  | nil => intro k _; rfl
  | cons p d ih =>
    intro k h
    rw [lookup_cons] at h
    by_cases hp : p.1 = k
    · rw [if_pos hp] at h
      exact absurd h (by simp)
    · rw [if_neg hp] at h
      simp [List.any_cons, hp, ih k h]

theorem storeSet_fresh {α : Type} (d : List (String × α)) (k : String) (v : α)
    (h : lookup d k = none) : storeSet d k v = d ++ [(k, v)] := by
  rw [storeSet, if_neg]
  rw [any_key_eq_false d k h]
  simp

/-- C10.  A change key that is not a field of the context schema is silently
skipped by the merge loop: merging is unchanged if every entry with that key
is removed, the merged dict acquires no new field, and two analyze_scenario
runs over stores identical but for filtering that key out of the stored
scenario's changes return the same analysis (and the same error, if any). -/
theorem c10_unknown_keys_ignored (k : String)
    (hk : ∀ ctx : FinancialContext, k ∉ (contextDict ctx).map Prod.fst) :
    (∀ (ctx : FinancialContext) (cs : List (String × PyVal)),
      mergeAndValidate ctx cs =
        mergeAndValidate ctx (cs.filter (fun p => p.1 != k))) ∧
    (∀ (ctx : FinancialContext) (cs d' : List (String × PyVal)),
      mergeChanges (contextDict ctx) cs = .ok d' →
      d'.map Prod.fst = (contextDict ctx).map Prod.fst) ∧
    (∀ (ctxs : List (String × FinancialContext))
      (scns1 scns2 : List (String × UserScenario))
      (ans : List (String × FinancialAnalysis)) (sid : String)
      (llm : LLMResult) (scn : UserScenario),
      lookup scns1 sid = some scn →
      lookup scns2 sid =
        some { scn with changes := scn.changes.filter (fun p => p.1 != k) } →
      Except.map Prod.fst
          (analyze_scenario ⟨ctxs, scns1, ans⟩ sid llm) =
        Except.map Prod.fst (analyze_scenario ⟨ctxs, scns2, ans⟩ sid llm)) := by
  have hmv : ∀ (ctx : FinancialContext) (cs : List (String × PyVal)),
      mergeAndValidate ctx cs =
        mergeAndValidate ctx (cs.filter (fun p => p.1 != k)) := by
    intro ctx cs
    unfold mergeAndValidate
    rw [← mergeChanges_filter_unknown k cs (contextDict ctx) (hk ctx)]
  refine ⟨hmv, ?_, ?_⟩
  · intro ctx cs d' hm
    exact mergeChanges_keys cs (contextDict ctx) d' hm
  · intro ctxs scns1 scns2 ans sid llm scn h1 h2
    unfold analyze_scenario
    rw [h1, h2]
    dsimp only
    rcases hc : lookup ctxs scn.company_id with _ | ctx
    · rfl
    · dsimp only
      rw [← hmv ctx scn.changes]
      rcases hm : mergeAndValidate ctx scn.changes with e | upd
      · rcases e <;> rfl
      · dsimp only
        rcases hg : generate_summary ctx upd (calculate_impact ctx upd) llm
          with e | s
        · rfl
        · rfl

/-- Witness for c10_unknown_keys_ignored at the key growth_rate: sampleCtx,
a changes list mixing the unknown key with a real revenue delta, and a pair of
one-scenario stores with and without the unknown entry. -/
theorem c10_unknown_keys_ignored_witness :
    mergeAndValidate sampleCtx
        [("growth_rate", .num 5), ("monthly_revenue", .num 1000)] =
      mergeAndValidate sampleCtx
        ([("growth_rate", .num 5), ("monthly_revenue", .num 1000)].filter
          (fun p => p.1 != "growth_rate")) ∧
    Except.map Prod.fst (analyze_scenario
        ⟨[("acme", sampleCtx)],
         [("scenario_1", ⟨"scenario_1", "acme",
            [("growth_rate", .num 5), ("monthly_revenue", .num 1000)]⟩)],
         []⟩ "scenario_1" (.success "fine")) =
      Except.map Prod.fst (analyze_scenario
        ⟨[("acme", sampleCtx)],
         [("scenario_1", ⟨"scenario_1", "acme",
            [("monthly_revenue", .num 1000)]⟩)],
         []⟩ "scenario_1" (.success "fine")) := by
  have h := c10_unknown_keys_ignored "growth_rate"
    (by intro ctx; rw [contextDict_keys]; decide)
  refine ⟨h.1 sampleCtx _, ?_⟩
  exact h.2.2 [("acme", sampleCtx)]
    [("scenario_1", ⟨"scenario_1", "acme",
      [("growth_rate", .num 5), ("monthly_revenue", .num 1000)]⟩)]
    [("scenario_1", ⟨"scenario_1", "acme", [("monthly_revenue", .num 1000)]⟩)]
    [] "scenario_1" (.success "fine")
    ⟨"scenario_1", "acme",
      [("growth_rate", .num 5), ("monthly_revenue", .num 1000)]⟩
    rfl rfl

/-- C7.  analyze_scenario fails with the scenario-kind ValueError (message
naming the scenario id) when the scenario id is absent, with the context-kind
ValueError (message naming the company id) when the scenario exists but its
company has no stored context, and never with a NotFound error when both
lookups succeed; the NotFound errors are exactly the ones the HTTP layer maps
to 404. -/
theorem c7_notfound_behaviour (st : AgentState) (sid : String)
    (llm : LLMResult) :
    (lookup st.scenario_store sid = none →
      analyze_scenario st sid llm = .error (.scenarioNotFound sid) ∧
      (AnalyzeErr.scenarioNotFound sid).message =
        "Scenario " ++ sid ++ " not found" ∧
      (AnalyzeErr.scenarioNotFound sid).isNotFound = true) ∧
    (∀ scn, lookup st.scenario_store sid = some scn →
      lookup st.context_store scn.company_id = none →
      analyze_scenario st sid llm = .error (.contextNotFound scn.company_id) ∧
      (AnalyzeErr.contextNotFound scn.company_id).message =
        "No financial context found for company " ++ scn.company_id ∧
      (AnalyzeErr.contextNotFound scn.company_id).isNotFound = true) ∧
    (∀ scn ctx e, lookup st.scenario_store sid = some scn →
      lookup st.context_store scn.company_id = some ctx →
      analyze_scenario st sid llm = .error e → e.isNotFound = false) := by
  refine ⟨?_, ?_, ?_⟩
  · intro h
    unfold analyze_scenario
    rw [h]
    exact ⟨rfl, rfl, rfl⟩
  · intro scn hs hc
    unfold analyze_scenario
    rw [hs]
    dsimp only
    rw [hc]
    exact ⟨rfl, rfl, rfl⟩
  · intro scn ctx e hs hc he
    unfold analyze_scenario at he
    rw [hs] at he
    dsimp only at he
    rw [hc] at he
    dsimp only at he
    rcases hm : mergeAndValidate ctx scn.changes with pe | upd
    · rw [hm] at he
      rcases pe
      · injection he with he
        rw [← he]
        rfl
      · injection he with he
        rw [← he]
        rfl
      · injection he with he
        rw [← he]
        rfl
    · rw [hm] at he
      dsimp only at he
      rcases hg : generate_summary ctx upd (calculate_impact ctx upd) llm
        with pe | s
      · rw [hg] at he
        injection he with he
        rw [← he]
        rfl
      · rw [hg] at he
        exact absurd he (by simp)

/-- Witness for c7_notfound_behaviour: a missing scenario id on the empty
store, a scenario whose company has no context, and a state in which both
lookups succeed and analyze_scenario fails with a (non-NotFound) TypeError. -/
theorem c7_notfound_behaviour_witness :
    (analyze_scenario ⟨[], [], []⟩ "missing" (.success "x") =
        .error (.scenarioNotFound "missing") ∧
      (AnalyzeErr.scenarioNotFound "missing").message =
        "Scenario " ++ "missing" ++ " not found" ∧
      (AnalyzeErr.scenarioNotFound "missing").isNotFound = true) ∧
    (analyze_scenario ⟨[], [("scenario_1", sampleScn)], []⟩ "scenario_1"
        (.success "x") = .error (.contextNotFound "acme") ∧
      (AnalyzeErr.contextNotFound "acme").message =
        "No financial context found for company " ++ "acme" ∧
      (AnalyzeErr.contextNotFound "acme").isNotFound = true) ∧
    AnalyzeErr.typeError.isNotFound = false := by
  refine ⟨?_, ?_, ?_⟩
  · exact (c7_notfound_behaviour ⟨[], [], []⟩ "missing" (.success "x")).1 rfl
  · exact (c7_notfound_behaviour ⟨[], [("scenario_1", sampleScn)], []⟩
      "scenario_1" (.success "x")).2.1 sampleScn rfl rfl
  · exact (c7_notfound_behaviour badTypeState "scenario_2" (.success "x")).2.2
      badTypeScn sampleCtx .typeError rfl rfl rfl

/-- C9.  A successful analyze_scenario run leaves the context store and the
scenario store untouched and extends the analysis store by exactly one entry,
keyed by the fresh id analysis_(n+1) (n the prior store size), which is the
id of the returned analysis; looking that id up afterwards yields the very
analysis returned. -/
theorem c9_analyze_frame_effect (st : AgentState) (sid : String)
    (llm : LLMResult) (a : FinancialAnalysis) (st' : AgentState)
    (hok : analyze_scenario st sid llm = .ok (a, st'))
    (hfresh : lookup st.analysis_store
      ("analysis_" ++ toString (st.analysis_store.length + 1)) = none) :
    st'.context_store = st.context_store ∧
    st'.scenario_store = st.scenario_store ∧
    a.analysis_id = "analysis_" ++ toString (st.analysis_store.length + 1) ∧
    st'.analysis_store = st.analysis_store ++ [(a.analysis_id, a)] ∧
    lookup st'.analysis_store a.analysis_id = some a := by
  unfold analyze_scenario at hok
  rcases hs : lookup st.scenario_store sid with _ | scn
  · rw [hs] at hok
    exact absurd hok (by simp)
  · rw [hs] at hok
    dsimp only at hok
    rcases hc : lookup st.context_store scn.company_id with _ | ctx
    · rw [hc] at hok
      exact absurd hok (by simp)
    · rw [hc] at hok
      dsimp only at hok
      rcases hm : mergeAndValidate ctx scn.changes with pe | upd
      · rcases pe <;>
          (rw [hm] at hok; exact absurd hok (by simp))
      · rw [hm] at hok
        dsimp only at hok
        rcases hg : generate_summary ctx upd (calculate_impact ctx upd) llm
          with pe | s
        · rw [hg] at hok
          exact absurd hok (by simp)
        · rw [hg] at hok
          dsimp only at hok
          injection hok with hok
          have ha := congrArg Prod.fst hok
          have hst := congrArg Prod.snd hok
          dsimp only at ha hst
          subst ha
          subst hst
          refine ⟨rfl, rfl, rfl, ?_, ?_⟩
          · dsimp only
            rw [storeSet_fresh st.analysis_store _ _ hfresh]
          · dsimp only
            rw [storeSet_fresh st.analysis_store _ _ hfresh]
            exact lookup_append_fresh st.analysis_store _ _ hfresh

/-- Witness for c9_analyze_frame_effect: the idOnlyState run with a
succeeding generation call, every hypothesis discharged by computation. -/
theorem c9_analyze_frame_effect_witness :
    idOnlyPost.context_store = idOnlyState.context_store ∧
    idOnlyPost.scenario_store = idOnlyState.scenario_store ∧
    idOnlyAnalysis.analysis_id =
      "analysis_" ++ toString (idOnlyState.analysis_store.length + 1) ∧
    idOnlyPost.analysis_store =
      idOnlyState.analysis_store ++
        [(idOnlyAnalysis.analysis_id, idOnlyAnalysis)] ∧
    lookup idOnlyPost.analysis_store idOnlyAnalysis.analysis_id =
      some idOnlyAnalysis :=
  c9_analyze_frame_effect idOnlyState "scenario_1" (.success "fine")
    idOnlyAnalysis idOnlyPost rfl rfl

/-- C4 (amended).  When the text-generation call fails, analyze_scenario
still succeeds (whenever its other steps do): it returns an analysis whose
impact record is the correctly computed delta and whose summary is non-empty,
namely the fixed heading followed by the error string of the failed call.
The amendment: that fallback summary is the generation error message, not a
deterministic template built from the impact-delta numbers. -/
theorem c4_generation_failure_degrades (st : AgentState) (sid err s : String)
    (scn : UserScenario) (ctx upd : FinancialContext)
    (hs : lookup st.scenario_store sid = some scn)
    (hc : lookup st.context_store scn.company_id = some ctx)
    (hm : mergeAndValidate ctx scn.changes = .ok upd)
    (hg : generate_summary ctx upd (calculate_impact ctx upd) (.failure err) =
      .ok s) :
    (∃ st', analyze_scenario st sid (.failure err) = .ok
      ({ analysis_id := "analysis_" ++ toString (st.analysis_store.length + 1)
         scenario_id := sid
         company_id := scn.company_id
         original_context := ctx
         updated_context := upd
         impact_analysis := calculate_impact ctx upd
         summary := s }, st')) ∧
    s = "# Financial Impact Analysis\n\nError generating response: " ++ err ∧
    0 < s.length := by
  have hsum : s =
      "# Financial Impact Analysis\n\nError generating response: " ++ err := by
    unfold generate_summary at hg
    rcases hp : buildPrompt ctx upd (calculate_impact ctx upd) with pe | p
    · rw [hp] at hg
      exact absurd hg (by simp)
    · rw [hp] at hg
      dsimp only [bind, Except.bind, pure, Except.pure] at hg
      injection hg with hg
      rw [← hg]
      rfl
  refine ⟨?_, hsum, ?_⟩
  · have heval : analyze_scenario st sid (.failure err) = .ok
        ({ analysis_id :=
             "analysis_" ++ toString (st.analysis_store.length + 1)
           scenario_id := sid
           company_id := scn.company_id
           original_context := ctx
           updated_context := upd
           impact_analysis := calculate_impact ctx upd
           summary := s },
         { st with analysis_store := (storeSet st.analysis_store
             ("analysis_" ++ toString (st.analysis_store.length + 1))
             { analysis_id :=
                 "analysis_" ++ toString (st.analysis_store.length + 1)
               scenario_id := sid
               company_id := scn.company_id
               original_context := ctx
               updated_context := upd
               impact_analysis := calculate_impact ctx upd
               summary := s }) }) := by
      unfold analyze_scenario
      rw [hs]
      dsimp only
      rw [hc]
      dsimp only
      rw [hm]
      dsimp only
      rw [hg]
    exact ⟨_, heval⟩
  · rw [hsum, String.length_append]
    have hpos :
        0 < "# Financial Impact Analysis\n\nError generating response: ".length :=
      by decide
    omega

/-- Witness for c4_generation_failure_degrades: the idOnlyState run with a
generation call failing with message boom. -/
theorem c4_generation_failure_degrades_witness :
    (∃ st', analyze_scenario idOnlyState "scenario_1" (.failure "boom") = .ok
      ({ analysis_id :=
           "analysis_" ++ toString (idOnlyState.analysis_store.length + 1)
         scenario_id := "scenario_1"
         company_id := idOnlyScn.company_id
         original_context := sampleCtx
         updated_context := idOnlyUpd
         impact_analysis := calculate_impact sampleCtx idOnlyUpd
         summary :=
           "# Financial Impact Analysis\n\nError generating response: boom" },
       st')) ∧
    "# Financial Impact Analysis\n\nError generating response: boom" =
      "# Financial Impact Analysis\n\nError generating response: " ++ "boom" ∧
    0 < ("# Financial Impact Analysis\n\nError generating response: boom").length :=
  c4_generation_failure_degrades idOnlyState "scenario_1" "boom"
    "# Financial Impact Analysis\n\nError generating response: boom"
    idOnlyScn sampleCtx idOnlyUpd rfl rfl rfl rfl

/-- C4 as stated is false in one respect: the fallback summary is not a
deterministic function of the impact-delta numbers.  With identical contexts
and identical impact records, two different generation failures produce two
different summaries (each the error text after the fixed heading). -/
theorem c4_counterexample_fallback_not_from_impact :
    decide ((generate_summary sampleCtx sampleCtx
        (calculate_impact sampleCtx sampleCtx) (.failure "timeout")).toOption =
      (generate_summary sampleCtx sampleCtx
        (calculate_impact sampleCtx sampleCtx) (.failure "api error")).toOption) =
      false ∧
    generate_summary sampleCtx sampleCtx (calculate_impact sampleCtx sampleCtx)
        (.failure "timeout") =
      .ok "# Financial Impact Analysis\n\nError generating response: timeout" ∧
    generate_summary sampleCtx sampleCtx (calculate_impact sampleCtx sampleCtx)
        (.failure "api error") =
      .ok "# Financial Impact Analysis\n\nError generating response: api error" :=
  ⟨rfl, rfl, rfl⟩

/-- C3 (code bug).  search on an empty index returns the empty sequence for
every query and every k, and results come back nearest-first; but with 2
stored documents and k = 5 the claim fails: FAISS pads its result with the
sentinel index -1, the source filter idx < len(documents) does not exclude
it, and Python resolves documents[-1] to the last document, so search returns
5 results (nearest first, then the last document three times) instead of
exactly the 2 stored ones. -/
theorem c3_search_empty_and_padding_bug :
    (∀ (q : List ℚ) (k : ℕ), (VectorStore.empty 384).search q k = []) ∧
    twoDocStore.documents = ["doc one", "doc two"] ∧
    twoDocStore.search twoDocQuery 5 =
      ["doc two", "doc one", "doc two", "doc two", "doc two"] ∧
    (twoDocStore.search twoDocQuery 5).length = 5 ∧
    decide ((twoDocStore.search twoDocQuery 5).length = 2) = false := by
  have hsearch : twoDocStore.search twoDocQuery 5 =
      ["doc two", "doc one", "doc two", "doc two", "doc two"] := by
    norm_num [twoDocStore, twoDocQuery, VectorStore.empty,
      VectorStore.add_documents, VectorStore.search, faissSearch, scoreRows,
      sqdist, distLe, pyGet, List.insertionSort, List.orderedInsert,
      List.replicate, List.filterMap_cons]
  refine ⟨?_, rfl, hsearch, ?_, ?_⟩
  · intro q k
    rfl
  · rw [hsearch]
    rfl
  · rw [hsearch]
    rfl

/-- C8 (code bug).  The summary prompt of RAGAgent._generate_summary divides
the revenue change by original.monthly_revenue with no zero guard (source
line 164), so a context with zero monthly revenue and a revenue-changing
scenario raises ZeroDivisionError, which propagates out of analyze_scenario;
the sibling divisions (expenses, marketing, team size, and both impact-section
percentages) are guarded, as the marketing contrast below shows. -/
theorem c8_unguarded_revenue_division :
    mergeAndValidate zeroRevCtx [("monthly_revenue", .num 1000)] =
      .ok zeroRevUpd ∧
    buildPrompt zeroRevCtx zeroRevUpd
      (calculate_impact zeroRevCtx zeroRevUpd) = .error .zeroDivisionError ∧
    analyze_scenario zeroRevState "scenario_1" (.success "ok") =
      .error .zeroDivisionError ∧
    (buildPrompt zeroMktCtx zeroMktUpd
      (calculate_impact zeroMktCtx zeroMktUpd)).toOption.isSome = true := by
  have hbp : buildPrompt zeroRevCtx zeroRevUpd
      (calculate_impact zeroRevCtx zeroRevUpd) = .error .zeroDivisionError := by
    norm_num [buildPrompt, buildChangesLines, buildImpactLines, pyDiv,
      calculate_impact, zeroRevCtx, zeroRevUpd, sampleCtx,
      bind, Except.bind, pure, Except.pure]
  refine ⟨rfl, hbp, ?_, ?_⟩
  · have hgen : generate_summary zeroRevCtx zeroRevUpd
        (calculate_impact zeroRevCtx zeroRevUpd) (.success "ok") =
        .error .zeroDivisionError := by
      unfold generate_summary
      rw [hbp]
      rfl
    unfold analyze_scenario
    rw [show lookup zeroRevState.scenario_store "scenario_1" = some sampleScn
      from rfl]
    dsimp only
    rw [show lookup zeroRevState.context_store sampleScn.company_id =
      some zeroRevCtx from rfl]
    dsimp only
    rw [show mergeAndValidate zeroRevCtx sampleScn.changes = .ok zeroRevUpd
      from rfl]
    dsimp only
    rw [hgen]
  · norm_num [buildPrompt, buildChangesLines, buildImpactLines, pyDiv,
      calculate_impact, zeroMktCtx, zeroMktUpd, sampleCtx,
      bind, Except.bind, pure, Except.pure, Except.toOption]

end CFO
